import Mathlib

/-!
Verification of `mk_aws_ssh_config.py` (tronner/aws-ssh-config).

The script is a straight-line pipeline: read a YAML config file named on the
command line, extract five fields, build an SSH bastion stanza, create an AWS
client, list the instances of the first reservation group, render one stanza
per instance that carries a `Name` tag, and write the concatenation to
standard output.

The shallow embedding below models:
  - parsed YAML values (`Yaml`) and Python-style subscript / `.get` lookup
    semantics, with Python exceptions as an error type (`PyErr`);
  - the instance records returned by `describe_instances` (`Instance`,
    `Reservation`, `DescribeResponse`), where an optional field models a
    possibly missing dictionary key;
  - the whole process run (`run`) as a function from an environment (argv,
    outcome of reading/parsing the file, outcome of AWS client construction,
    and the describe response) to a `RunOutcome` recording how the process
    ended and every write made to stderr and stdout.
-/

namespace MkAwsSshConfig

/-- Parsed YAML values, as produced by `yaml.load`. -/
inductive Yaml where
  | null
  | bool (b : Bool)
  | int (n : Int)
  | str (s : String)
  | seq (xs : List Yaml)
  | map (kvs : List (String × Yaml))

/-- Python exceptions that the modelled lookups can raise. -/
inductive PyErr where
  | keyError (k : String)
  | typeError (msg : String)
  | attributeError (msg : String)
  | indexError (msg : String)
deriving DecidableEq

/-- Python `str(e)` for the modelled exceptions: `KeyError` renders as the
quoted key, the others render their message. -/
def pyErrStr : PyErr → String
  | PyErr.keyError k => "\x27" ++ k ++ "\x27"
  | PyErr.typeError m => m
  | PyErr.attributeError m => m
  | PyErr.indexError m => m

/-- Python `v[k]` for a parsed YAML value: mapping lookup succeeds on the
first matching key and raises `KeyError` when absent; every non-mapping
value raises a `TypeError`. -/
def pyGetItem : Yaml → String → Except PyErr Yaml
  | Yaml.map kvs, k =>
    match kvs.find? (fun kv => kv.1 == k) with
    | some kv => Except.ok kv.2
    | none => Except.error (PyErr.keyError k)
  | Yaml.null, _ => Except.error (PyErr.typeError "\x27NoneType\x27 object is not subscriptable")
  | Yaml.bool _, _ => Except.error (PyErr.typeError "\x27bool\x27 object is not subscriptable")
  | Yaml.int _, _ => Except.error (PyErr.typeError "\x27int\x27 object is not subscriptable")
  | Yaml.str _, _ => Except.error (PyErr.typeError "string indices must be integers")
  | Yaml.seq _, _ => Except.error (PyErr.typeError "list indices must be integers or slices, not str")

/-- Python `v.get(k, default)`: never fails on a mapping; raises
`AttributeError` on values that have no `.get` method. -/
def pyGet (v : Yaml) (k : String) (default : Yaml) : Except PyErr Yaml :=
  match v with
  | Yaml.map kvs =>
    Except.ok (match kvs.find? (fun kv => kv.1 == k) with
      | some kv => kv.2
      | none => default)
  | Yaml.null => Except.error (PyErr.attributeError "\x27NoneType\x27 object has no attribute \x27get\x27")
  | Yaml.bool _ => Except.error (PyErr.attributeError "\x27bool\x27 object has no attribute \x27get\x27")
  | Yaml.int _ => Except.error (PyErr.attributeError "\x27int\x27 object has no attribute \x27get\x27")
  | Yaml.str _ => Except.error (PyErr.attributeError "\x27str\x27 object has no attribute \x27get\x27")
  | Yaml.seq _ => Except.error (PyErr.attributeError "\x27list\x27 object has no attribute \x27get\x27")

/-- Chained Python lookup `v[k1][k2]`. -/
def pyGetItem2 (v : Yaml) (k1 k2 : String) : Except PyErr Yaml :=
  match pyGetItem v k1 with
  | Except.error e => Except.error e
  | Except.ok w => pyGetItem w k2

mutual

/-- Python `repr` of a parsed YAML value. -/
def pyRepr : Yaml → String
  | Yaml.null => "None"
  | Yaml.bool true => "True"
  | Yaml.bool false => "False"
  | Yaml.int n => toString n
  | Yaml.str s => "\x27" ++ s ++ "\x27"
  | Yaml.seq xs => "[" ++ String.intercalate ", " (pyReprList xs) ++ "]"
  | Yaml.map kvs => "\x7b" ++ String.intercalate ", " (pyReprPairs kvs) ++ "\x7d"

/-- `repr` of each element of a YAML sequence. -/
def pyReprList : List Yaml → List String
  | [] => []
  | x :: xs => pyRepr x :: pyReprList xs

/-- `repr` of each key/value entry of a YAML mapping. -/
def pyReprPairs : List (String × Yaml) → List String
  | [] => []
  | kv :: kvs => ("\x27" ++ kv.1 ++ "\x27: " ++ pyRepr kv.2) :: pyReprPairs kvs

end

/-- Python `str(v)` as used by `"...".format(v)`: a string formats as itself,
anything else as its `repr`-style rendering. -/
def pyStr : Yaml → String
  | Yaml.str s => s
  | v => pyRepr v

/-- One `Key`/`Value` tag pair of an EC2 instance. -/
structure Tag where
  key : String
  value : String
deriving DecidableEq

/-- An instance record of the describe response. `tags = none` models a
record with no `Tags` key at all; `privateIpAddress = none` models a record
with no `PrivateIpAddress` key. -/
structure Instance where
  tags : Option (List Tag)
  privateIpAddress : Option String
deriving DecidableEq

/-- One reservation group of the describe response. -/
structure Reservation where
  instances : List Instance
deriving DecidableEq

/-- The `describe_instances()` response: its list of reservation groups. -/
structure DescribeResponse where
  reservations : List Reservation
deriving DecidableEq

/-- `get_tag(instance, tagkey)`: iterate `instance["Tags"]` and return the
`Value` of the first tag whose `Key` equals `tagkey`, else `None`. Accessing
`instance["Tags"]` on a record without a `Tags` key raises `KeyError`. -/
def get_tag (inst : Instance) (tagkey : String) : Except PyErr (Option String) :=
  match inst.tags with
  | none => Except.error (PyErr.keyError "Tags")
  | some tags => Except.ok ((tags.find? (fun tag => tag.key == tagkey)).map Tag.value)

/-- The config-extraction `try` block (lines 77-86 of the source): the five
lookups `cfg["aws_profile"]`, `cfg.get("instance_prefix", "")`,
`cfg["bastion"]["host"]`, `cfg["bastion"]["user"]`, `cfg["instances"]["user"]`
in source order; the first exception aborts the whole block. -/
def extractConfig (cfg : Yaml) : Except PyErr (Yaml × Yaml × Yaml × Yaml × Yaml) :=
  match pyGetItem cfg "aws_profile" with
  | Except.error e => Except.error e
  | Except.ok aws_profile =>
    match pyGet cfg "instance_prefix" (Yaml.str "") with
    | Except.error e => Except.error e
    | Except.ok instance_pfx =>
      match pyGetItem cfg "bastion" with
      | Except.error e => Except.error e
      | Except.ok bastion1 =>
        match pyGetItem bastion1 "host" with
        | Except.error e => Except.error e
        | Except.ok bastion_host =>
          match pyGetItem cfg "bastion" with
          | Except.error e => Except.error e
          | Except.ok bastion2 =>
            match pyGetItem bastion2 "user" with
            | Except.error e => Except.error e
            | Except.ok bastion_user =>
              match pyGetItem cfg "instances" with
              | Except.error e => Except.error e
              | Except.ok insts =>
                match pyGetItem insts "user" with
                | Except.error e => Except.error e
                | Except.ok instance_user =>
                  Except.ok (aws_profile, instance_pfx, bastion_host, bastion_user, instance_user)

/-- The bastion stanza template (lines 89-94 of the source). -/
def bastion_config (aws_profile bastion_host bastion_user : String) : String :=
  "Host " ++ aws_profile ++ "-bastion\n    Hostname " ++ bastion_host ++
    "\n    User " ++ bastion_user ++ "\n\n"

/-- The per-instance stanza template (lines 111-122 of the source). -/
def instance_stanza (instance_pfx name ip instance_user aws_profile : String) : String :=
  "Host: " ++ instance_pfx ++ name ++ "\n    Hostname " ++ ip ++
    "\n    User " ++ instance_user ++ "\n    ProxyCommand ssh " ++ aws_profile ++
    "-bastion nc %h %p\n\n"

/-- The instance loop (lines 106-122 of the source): for each instance in
order, look up its `Name` tag; skip the instance when the tag is absent,
otherwise append a stanza built from the prefix, the name, the instance
private IP and the configured user. Exceptions (missing `Tags` or
`PrivateIpAddress` key) abort the loop uncaught. -/
def renderInstances (instance_pfx instance_user aws_profile : String) :
    List Instance → Except PyErr (List String)
  | [] => Except.ok []
  | inst :: rest =>
    match get_tag inst "Name" with
    | Except.error e => Except.error e
    | Except.ok none => renderInstances instance_pfx instance_user aws_profile rest
    | Except.ok (some name) =>
      match inst.privateIpAddress with
      | none => Except.error (PyErr.keyError "PrivateIpAddress")
      | some ip =>
        match renderInstances instance_pfx instance_user aws_profile rest with
        | Except.error e => Except.error e
        | Except.ok tail =>
          Except.ok (instance_stanza instance_pfx name ip instance_user aws_profile :: tail)

/-- The full `configs` list the script joins and prints: the bastion stanza
followed by one stanza per instance with a `Name` tag. -/
def renderConfigs ( aws_profile instance_pfx bastion_host bastion_user instance_user : String)
    (insts : List Instance) : Except PyErr (List String) :=
  match renderInstances instance_pfx instance_user aws_profile insts with
  | Except.error e => Except.error e
  | Except.ok stanzas => Except.ok (bastion_config aws_profile bastion_host bastion_user :: stanzas)

/-- Python `"".join(l)`. -/
def joinAll (l : List String) : String := String.join l

/-- Outcome of the read-and-parse stage (lines 67-75): `ioError` models an
`IOError` while opening or reading the file, `yamlError` any other exception
out of `yaml.load` (with its rendered message), `ok` a successful parse. -/
inductive ParseOutcome where
  | ioError
  | yamlError (msg : String)
  | ok (v : Yaml)

/-- The environment of one process run: the argument vector (including the
program name at index 0), the outcome of reading and parsing the config file
named by `argv[1]`, the outcome of `boto3` session/client construction (with
the rendered exception message on failure), and the describe response. -/
structure Env where
  argv : List String
  parseOutcome : ParseOutcome
  awsOutcome : Except String Unit
  response : DescribeResponse

/-- How the process ended: `exit code` for a `sys.exit` (or falling off the
end, exit 0), `crash e` for an uncaught exception, which carries no exit
code of its own. -/
inductive Termination where
  | exit (code : Nat)
  | crash (e : PyErr)
deriving DecidableEq

/-- The observable outcome of a run: the termination, and the exact sequence
of writes made to stderr and to stdout. -/
structure RunOutcome where
  term : Termination
  stderrWrites : List String
  stdoutWrites : List String

/-- The module docstring, written to stderr when `argv[1]` is missing. -/
def usageDoc : String :=
  "mk_aws_ssh_config.py\n" ++
  "\n" ++
  "Outputs an ssh client config file that can be Include\x27d in .ssh/config\n" ++
  "The config consists of an entry for the bastion host and entries for\n" ++
  "all instances with a Name tag. Instances connect through the bastion host.\n" ++
  "\n" ++
  "Example:\n" ++
  "  \n" ++
  "  Config file foocorp-mgmnt.yml:\n" ++
  "    ---\n" ++
  "    aws_profile: foocorp\n" ++
  "    instance_prefix: foocorp-\n" ++
  "    bastion:\n" ++
  "      host: 12.34.56.78\n" ++
  "      user: alice\n" ++
  "    instances:\n" ++
  "      user: alice\n" ++
  "\n" ++
  "  $ mk_aws_ssh_config foocorp-mgmnt.yml > $HOME/.ssh/foocorp_mgmnt_config\n" ++
  "\n" ++
  "  The file will contain something like:\n" ++
  "\n" ++
  "     Host foocorp-bastion\n" ++
  "         Hostname 12.34.56.78\n" ++
  "         User alice\n" ++
  "     \n" ++
  "     Host: foocorp-prd.alices-bobsledadventures.com\n" ++
  "         Hostname 172.18.47.98\n" ++
  "         User alice\n" ++
  "         ProxyCommand ssh foocorp-bastion nc %h %p\n" ++
  "     \n" ++
  "     Host: foocorp-tst.alices-bobsledadventures.com\n" ++
  "         Hostname 172.18.85.48\n" ++
  "         User alice\n" ++
  "         ProxyCommand ssh foocorp-bastion nc %h %p\n" ++
  "\n" ++
  "  Now edit $HOME/.ssh/config and add the following line:\n" ++
  "\n" ++
  "    Include foocorp_mgmnt_config\n" ++
  "\n" ++
  "  Try it out:\n" ++
  "\n" ++
  "  $ ssh foocorp-tst.alices-bobsledadventures.com\n" ++
  "  alice@prd$ _\n"

/-- The whole script, lines 61-124 of the source, as a function from the
run environment to the observable outcome. Missing `argv[1]` exits 1 after
printing the usage text; a read failure exits 2 naming the file; any other
parse failure exits 2 with the YAML diagnostic; an exception in the
config-extraction block exits 3 with the exception message; an exception
while building the AWS client exits 4; an empty reservation list, a record
without `Tags`, or a named record without `PrivateIpAddress` crash the
process with an uncaught exception; otherwise the joined stanzas are written
to stdout once and the process exits 0. The bastion stanza is built (purely)
before the AWS stage; `renderConfigs` places it first in the joined list. -/
def run (env : Env) : RunOutcome :=
  match env.argv[1]? with
  | none => ⟨Termination.exit 1, [usageDoc], []⟩
  | some cfgfilename =>
    match env.parseOutcome with
    | ParseOutcome.ioError =>
      ⟨Termination.exit 2, ["Error reading file " ++ cfgfilename ++ "\n"], []⟩
    | ParseOutcome.yamlError e =>
      ⟨Termination.exit 2, ["YAML error:\n" ++ e ++ "\n"], []⟩
    | ParseOutcome.ok cfg =>
      match extractConfig cfg with
      | Except.error e =>
        ⟨Termination.exit 3, ["Configuration error:\n" ++ pyErrStr e ++ "\n"], []⟩
      | Except.ok (aws_profile, instance_pfx, bastion_host, bastion_user, instance_user) =>
        match env.awsOutcome with
        | Except.error e =>
          ⟨Termination.exit 4, ["AWS Error: \n" ++ e ++ "\n"], []⟩
        | Except.ok _ =>
          match env.response.reservations[0]? with
          | none => ⟨Termination.crash (PyErr.indexError "list index out of range"), [], []⟩
          | some res =>
            match renderConfigs (pyStr aws_profile) (pyStr instance_pfx) (pyStr bastion_host)
                (pyStr bastion_user) (pyStr instance_user) res.instances with
            | Except.error e => ⟨Termination.crash e, [], []⟩
            | Except.ok configs => ⟨Termination.exit 0, [], [joinAll configs]⟩

/-- An instance has a `Name` tag (of any value) in the sense of the code:
`get_tag` returns a value rather than `None`. -/
def hasNameTag (inst : Instance) : Bool :=
  match get_tag inst "Name" with
  | Except.ok (some _) => true
  | _ => false

/-- An instance has a `Name` tag with a non-empty value — the condition the
specification uses when counting stanzas. -/
def hasNonEmptyNameTag (inst : Instance) : Bool :=
  match get_tag inst "Name" with
  | Except.ok (some v) => v != ""
  | _ => false

theorem foldl_append (l : List String) (a b : String) :
    l.foldl (fun r s => r ++ s) (a ++ b) = a ++ l.foldl (fun r s => r ++ s) b := by
  induction l generalizing b with
  | nil => rfl
  | cons x xs ih =>
    simp only [List.foldl_cons]
    rw [String.append_assoc, ih]

theorem joinAll_cons (c : String) (cs : List String) : joinAll (c :: cs) = c ++ joinAll cs := by
  unfold joinAll String.join
  simp only [List.foldl_cons]
  rw [String.empty_append]
  calc List.foldl (fun r s => r ++ s) c cs
      = List.foldl (fun r s => r ++ s) (c ++ "") cs := by rw [String.append_empty]
    _ = c ++ List.foldl (fun r s => r ++ s) "" cs := foldl_append cs c ""

theorem joinAll_singleton (c : String) : joinAll [c] = c := by
  rw [joinAll_cons]
  show c ++ joinAll [] = c
  rw [show joinAll [] = "" from rfl, String.append_empty]

/-- C4: No partial output on failure — for every environment, the run writes
to standard output exactly once when the process exits 0, and writes nothing
to standard output otherwise (usage, read/parse, config-extraction and AWS
client failures all exit non-zero before the single final write, and the
uncaught crashes also write nothing); the bastion stanza built early never
reaches stdout unless the whole run succeeds. -/
theorem C4_no_partial_output (env : Env) :
    ((run env).term = Termination.exit 0 ∧ (run env).stdoutWrites.length = 1) ∨
    ((run env).term ≠ Termination.exit 0 ∧ (run env).stdoutWrites = []) := by
  unfold run
  repeat' split
  all_goals first
    | exact Or.inl ⟨rfl, rfl⟩
    | exact Or.inr ⟨by simp, rfl⟩

/-- C3: Only the first reservation group is exposed to the renderer — for
every run that reaches the inventory stage and whose first reservation group
has an empty instance list, the process succeeds and the output is exactly
the bastion stanza, regardless of what later reservation groups contain. -/
theorem C3_first_reservation_only (env : Env) (f : String) (cfg a pfx bh bu iu : Yaml)
    (res : Reservation)
    (h1 : env.argv[1]? = some f)
    (h2 : env.parseOutcome = ParseOutcome.ok cfg)
    (h3 : extractConfig cfg = Except.ok (a, pfx, bh, bu, iu))
    (h4 : env.awsOutcome = Except.ok ())
    (h5 : env.response.reservations[0]? = some res)
    (h6 : res.instances = []) :
    run env = ⟨Termination.exit 0, [], [bastion_config (pyStr a) (pyStr bh) (pyStr bu)]⟩ := by
  unfold run
  simp only [h1, h2, h3, h4, h5, h6, renderConfigs, renderInstances]
  rw [joinAll_singleton]

/-- An instance carrying a `Name` tag, used by the concrete witnesses. -/
def instNamed : Instance := ⟨some [⟨"Name", "web1"⟩], some "10.0.0.7"⟩

/-- An instance with tags but no `Name` tag, used by the concrete witnesses. -/
def instNoName : Instance := ⟨some [⟨"env", "x"⟩], none⟩

/-- A well-formed parsed config file, used by the concrete witnesses. -/
def cfgOk : Yaml :=
  Yaml.map [("aws_profile", Yaml.str "p"),
    ("bastion", Yaml.map [("host", Yaml.str "h"), ("user", Yaml.str "u")]),
    ("instances", Yaml.map [("user", Yaml.str "iu")])]

/-- Environment for the C3 witness: the first reservation group is empty and
a later group holds a named instance. -/
def envC3 : Env :=
  ⟨["mk_aws_ssh_config", "cfg.yml"], ParseOutcome.ok cfgOk, Except.ok (),
    ⟨[⟨[]⟩, ⟨[instNamed]⟩]⟩⟩

/-- C3 witness: on a concrete response whose first reservation group is empty
while the second contains a named instance, the run prints only the bastion
stanza. -/
theorem C3_first_reservation_only_witness :
    run envC3 = ⟨Termination.exit 0, [], [bastion_config "p" "h" "u"]⟩ :=
  C3_first_reservation_only envC3 "cfg.yml" cfgOk (Yaml.str "p") (Yaml.str "") (Yaml.str "h")
    (Yaml.str "u") (Yaml.str "iu") ⟨[]⟩ rfl rfl rfl rfl rfl rfl

theorem extract_ok_lookups {cfg a pfx bh bu iu : Yaml}
    (h : extractConfig cfg = Except.ok (a, pfx, bh, bu, iu)) :
    pyGetItem cfg "aws_profile" = Except.ok a ∧
    pyGetItem2 cfg "bastion" "host" = Except.ok bh ∧
    pyGetItem2 cfg "bastion" "user" = Except.ok bu ∧
    pyGetItem2 cfg "instances" "user" = Except.ok iu := by
  unfold extractConfig at h
  cases hA : pyGetItem cfg "aws_profile" with
  | error e => simp [hA] at h
  | ok av =>
  simp only [hA] at h
  cases hP : pyGet cfg "instance_prefix" (Yaml.str "") with
  | error e => simp [hP] at h
  | ok pv =>
  simp only [hP] at h
  cases hB : pyGetItem cfg "bastion" with
  | error e => simp [hB] at h
  | ok bv =>
  simp only [hB] at h
  cases hBH : pyGetItem bv "host" with
  | error e => simp [hBH] at h
  | ok bhv =>
  simp only [hBH] at h
  cases hBU : pyGetItem bv "user" with
  | error e => simp [hBU] at h
  | ok buv =>
  simp only [hBU] at h
  cases hI : pyGetItem cfg "instances" with
  | error e => simp [hI] at h
  | ok iv =>
  simp only [hI] at h
  cases hIU : pyGetItem iv "user" with
  | error e => simp [hIU] at h
  | ok iuv =>
  simp only [hIU, Except.ok.injEq, Prod.mk.injEq] at h
  obtain ⟨ha, -, hbh, hbu, hiu⟩ := h
  refine ⟨?_, ?_, ?_, ?_⟩
  · simp [hA, ha]
  · simp [pyGetItem2, hB, hBH, hbh]
  · simp [pyGetItem2, hB, hBU, hbu]
  · simp [pyGetItem2, hI, hIU, hiu]

/-- C5: Any failing lookup among `aws_profile`, `bastion.host`, `bastion.user`
and `instances.user` makes the whole extraction block fail (no partial
success), and the run then exits with status 3, writes a configuration-error
message embedding the failed lookup's exception to stderr, and writes nothing
to standard output. -/
theorem C5_config_error_exit3 (env : Env) (f : String) (cfg : Yaml)
    (h1 : env.argv[1]? = some f)
    (h2 : env.parseOutcome = ParseOutcome.ok cfg)
    (hfail : (pyGetItem cfg "aws_profile").isOk = false ∨
      (pyGetItem2 cfg "bastion" "host").isOk = false ∨
      (pyGetItem2 cfg "bastion" "user").isOk = false ∨
      (pyGetItem2 cfg "instances" "user").isOk = false) :
    ∃ e, extractConfig cfg = Except.error e ∧
      run env = ⟨Termination.exit 3, ["Configuration error:\n" ++ pyErrStr e ++ "\n"], []⟩ := by
  cases hex : extractConfig cfg with
  | ok tup =>
    obtain ⟨a, pfx, bh, bu, iu⟩ := tup
    obtain ⟨hA, hBH, hBU, hIU⟩ := extract_ok_lookups hex
    rcases hfail with hf | hf | hf | hf
    · rw [hA] at hf; simp [Except.isOk, Except.toBool] at hf
    · rw [hBH] at hf; simp [Except.isOk, Except.toBool] at hf
    · rw [hBU] at hf; simp [Except.isOk, Except.toBool] at hf
    · rw [hIU] at hf; simp [Except.isOk, Except.toBool] at hf
  | error e =>
    refine ⟨e, rfl, ?_⟩
    unfold run
    simp only [h1, h2, hex]

/-- A parsed config missing `bastion.user`, used by the C5 witness. -/
def cfgNoBastionUser : Yaml :=
  Yaml.map [("aws_profile", Yaml.str "p"),
    ("bastion", Yaml.map [("host", Yaml.str "h")]),
    ("instances", Yaml.map [("user", Yaml.str "iu")])]

/-- Environment for the C5 witness. -/
def envC5 : Env :=
  ⟨["mk_aws_ssh_config", "cfg.yml"], ParseOutcome.ok cfgNoBastionUser, Except.ok (), ⟨[]⟩⟩

/-- C5 witness: with `bastion.user` missing from the parsed config, the run
exits 3, reports the `KeyError` on stderr, and prints nothing. -/
theorem C5_config_error_exit3_witness :
    ∃ e, extractConfig cfgNoBastionUser = Except.error e ∧
      run envC5 = ⟨Termination.exit 3, ["Configuration error:\n" ++ pyErrStr e ++ "\n"], []⟩ :=
  C5_config_error_exit3 envC5 "cfg.yml" cfgNoBastionUser rfl rfl (Or.inr (Or.inr (Or.inl rfl)))

/-- C2 counterexample: the extraction stage performs no emptiness or type
check — a parsed config whose `aws_profile` is the empty string, and one
whose `aws_profile` is the integer 5, are both extracted successfully, so
construction does not require the four fields to be non-empty strings. -/
theorem C2_counterexample :
    extractConfig (Yaml.map [("aws_profile", Yaml.str ""),
        ("bastion", Yaml.map [("host", Yaml.str "h"), ("user", Yaml.str "u")]),
        ("instances", Yaml.map [("user", Yaml.str "iu")])]) =
      Except.ok (Yaml.str "", Yaml.str "", Yaml.str "h", Yaml.str "u", Yaml.str "iu") ∧
    extractConfig (Yaml.map [("aws_profile", Yaml.int 5),
        ("bastion", Yaml.map [("host", Yaml.str "h"), ("user", Yaml.str "u")]),
        ("instances", Yaml.map [("user", Yaml.str "iu")])]) =
      Except.ok (Yaml.int 5, Yaml.str "", Yaml.str "h", Yaml.str "u", Yaml.str "iu") :=
  ⟨rfl, rfl⟩

/-- C2 (amended): extraction succeeds exactly on lookup success — whenever
the four plain key lookups `aws_profile`, `bastion.host`, `bastion.user` and
`instances.user` resolve (with any values whatsoever, empty or non-string
included), the extraction stage succeeds and returns those very values,
together with the defaulted `instance_prefix`. -/
theorem C2_lookup_only (cfg a bh bu iu : Yaml)
    (hA : pyGetItem cfg "aws_profile" = Except.ok a)
    (hBH : pyGetItem2 cfg "bastion" "host" = Except.ok bh)
    (hBU : pyGetItem2 cfg "bastion" "user" = Except.ok bu)
    (hIU : pyGetItem2 cfg "instances" "user" = Except.ok iu) :
    ∃ pfx, extractConfig cfg = Except.ok (a, pfx, bh, bu, iu) := by
  obtain ⟨kvs, rfl⟩ : ∃ kvs, cfg = Yaml.map kvs := by
    cases cfg
    case map kvs => exact ⟨kvs, rfl⟩
    all_goals simp [pyGetItem] at hA
  cases hB : pyGetItem (Yaml.map kvs) "bastion" with
  | error e => simp [pyGetItem2, hB] at hBH
  | ok bv =>
  simp only [pyGetItem2, hB] at hBH hBU
  cases hI : pyGetItem (Yaml.map kvs) "instances" with
  | error e => simp [pyGetItem2, hI] at hIU
  | ok iv =>
  simp only [pyGetItem2, hI] at hIU
  obtain ⟨pv, hP⟩ : ∃ pv, pyGet (Yaml.map kvs) "instance_prefix" (Yaml.str "") = Except.ok pv :=
    ⟨_, rfl⟩
  refine ⟨pv, ?_⟩
  unfold extractConfig
  simp only [hA, hP, hB, hBH, hBU, hI, hIU]

/-- C2 witness: on a concrete well-formed config the four lookups succeed and
extraction returns exactly the looked-up values. -/
theorem C2_lookup_only_witness :
    ∃ pfx, extractConfig cfgOk =
      Except.ok (Yaml.str "p", pfx, Yaml.str "h", Yaml.str "u", Yaml.str "iu") :=
  C2_lookup_only cfgOk (Yaml.str "p") (Yaml.str "h") (Yaml.str "u") (Yaml.str "iu")
    rfl rfl rfl rfl

/-- C10: A config file that parses to a non-mapping YAML value (null from an
empty file, a bare scalar, or a sequence) passes the parse stage and fails
during key extraction: the run exits with status 3 (the configuration-error
path, not the read/parse status 2) and writes nothing to standard output. -/
theorem C10_non_mapping_exit3 (env : Env) (f : String) (cfg : Yaml)
    (h1 : env.argv[1]? = some f)
    (h2 : env.parseOutcome = ParseOutcome.ok cfg)
    (h3 : ∀ kvs, cfg ≠ Yaml.map kvs) :
    ∃ e, extractConfig cfg = Except.error e ∧
      (run env).term = Termination.exit 3 ∧ (run env).stdoutWrites = [] := by
  have hex : ∃ e, extractConfig cfg = Except.error e := by
    cases cfg
    case map kvs => exact absurd rfl (h3 kvs)
    all_goals exact ⟨_, rfl⟩
  obtain ⟨e, he⟩ := hex
  refine ⟨e, he, ?_, ?_⟩ <;>
    · unfold run
      simp only [h1, h2, he]

/-- Environment for the C10 witness: the config file parsed to YAML null (an
empty file). -/
def envC10 : Env :=
  ⟨["mk_aws_ssh_config", "cfg.yml"], ParseOutcome.ok Yaml.null, Except.ok (), ⟨[]⟩⟩

/-- C10 witness: an empty config file (parsed as null) exits 3 with no
stdout. -/
theorem C10_non_mapping_exit3_witness :
    ∃ e, extractConfig Yaml.null = Except.error e ∧
      (run envC10).term = Termination.exit 3 ∧ (run envC10).stdoutWrites = [] :=
  C10_non_mapping_exit3 envC10 "cfg.yml" Yaml.null rfl rfl
    (fun _ h => Yaml.noConfusion h)

theorem renderInstances_length ( instance_pfx instance_user aws_profile : String)
    (insts : List Instance) :
    ∀ stanzas, renderInstances instance_pfx instance_user aws_profile insts = Except.ok stanzas →
      stanzas.length = (insts.filter hasNameTag).length := by
  induction insts with
  | nil =>
    intro stanzas h
    simp only [renderInstances, Except.ok.injEq] at h
    simp [← h]
  | cons inst rest ih =>
    intro stanzas h
    cases hg : get_tag inst "Name" with
    | error e => simp [renderInstances, hg] at h
    | ok nameOpt =>
      cases nameOpt with
      | none =>
        simp only [renderInstances, hg] at h
        simp [List.filter_cons, hasNameTag, hg, ih stanzas h]
      | some name =>
        cases hip : inst.privateIpAddress with
        | none => simp [renderInstances, hg, hip] at h
        | some ip =>
          cases hr : renderInstances instance_pfx instance_user aws_profile rest with
          | error e => simp [renderInstances, hg, hip, hr] at h
          | ok tail =>
            simp only [renderInstances, hg, hip, hr, Except.ok.injEq] at h
            simp [← h, List.filter_cons, hasNameTag, hg, ih tail hr]

/-- C1 (amended): for every run of the renderer that completes, the produced
list of stanzas has length exactly 1 + N, where N counts the instances of the
first reservation group that carry a `Name` tag at all — the skipped
instances (no `Name` tag) contribute nothing. The code only tests the tag
for presence, not for a non-empty value, so an empty-valued `Name` tag also
yields a stanza. -/
theorem C1_stanza_count ( aws_profile instance_pfx bastion_host bastion_user instance_user : String)
    (insts : List Instance) (configs : List String)
    (h : renderConfigs aws_profile instance_pfx bastion_host bastion_user instance_user insts =
      Except.ok configs) :
    configs.length = 1 + (insts.filter hasNameTag).length := by
  unfold renderConfigs at h
  cases hr : renderInstances instance_pfx instance_user aws_profile insts with
  | error e => simp [hr] at h
  | ok stanzas =>
    simp only [hr, Except.ok.injEq] at h
    simp [← h, renderInstances_length instance_pfx instance_user aws_profile insts stanzas hr,
      Nat.add_comm]

/-- C1 witness: on one named and one unnamed instance the renderer yields a
two-element list — the bastion stanza plus the one named-instance stanza. -/
theorem C1_stanza_count_witness :
    ([bastion_config "p" "h" "u", instance_stanza "" "web1" "10.0.0.7" "iu" "p"] :
      List String).length = 1 + ([instNamed, instNoName].filter hasNameTag).length :=
  C1_stanza_count "p" "" "h" "u" "iu" [instNamed, instNoName]
    [bastion_config "p" "h" "u", instance_stanza "" "web1" "10.0.0.7" "iu" "p"] rfl

/-- An instance whose `Name` tag has the empty string as value. -/
def instEmptyName : Instance := ⟨some [⟨"Name", ""⟩], some "10.0.0.5"⟩

/-- C1 counterexample: an instance whose `Name` tag exists but has an empty
value still gets a stanza — the renderer emits 2 stanzas although the number
of instances with a non-empty `Name` tag is 0, so the output is not
1 + (count of instances with a non-empty `Name` tag). -/
theorem C1_counterexample :
    (renderConfigs "p" "" "h" "u" "iu" [instEmptyName]).map List.length = Except.ok 2 ∧
    ([instEmptyName].filter hasNonEmptyNameTag).length = 0 :=
  ⟨rfl, rfl⟩

/-- C6: The rendered text always begins with the bastion stanza — whenever
the renderer completes, the first element of the stanza list is the bastion
stanza `Host aws_profile-bastion` / `Hostname` / `User` followed by a blank
line, and the joined output text starts with exactly that block, regardless
of the instance list and of the remaining config fields. -/
theorem C6_bastion_first ( aws_profile instance_pfx bastion_host bastion_user instance_user : String)
    (insts : List Instance) (configs : List String)
    (h : renderConfigs aws_profile instance_pfx bastion_host bastion_user instance_user insts =
      Except.ok configs) :
    configs.head? = some ("Host " ++ aws_profile ++ "-bastion\n    Hostname " ++ bastion_host ++
      "\n    User " ++ bastion_user ++ "\n\n") ∧
    ∃ rest, joinAll configs = "Host " ++ aws_profile ++ "-bastion\n    Hostname " ++
      bastion_host ++ "\n    User " ++ bastion_user ++ "\n\n" ++ rest := by
  unfold renderConfigs at h
  cases hr : renderInstances instance_pfx instance_user aws_profile insts with
  | error e => simp [hr] at h
  | ok stanzas =>
    simp only [hr, Except.ok.injEq] at h
    refine ⟨by rw [← h]; rfl, joinAll stanzas, ?_⟩
    rw [← h, joinAll_cons]
    rfl

/-- C6 witness: on the empty instance list the renderer returns just the
bastion stanza, whose text starts with `Host p-bastion`. -/
theorem C6_bastion_first_witness :
    ([bastion_config "p" "h" "u"] : List String).head? =
      some ("Host " ++ "p" ++ "-bastion\n    Hostname " ++ "h" ++ "\n    User " ++ "u" ++
        "\n\n") ∧
    ∃ rest, joinAll [bastion_config "p" "h" "u"] = "Host " ++ "p" ++ "-bastion\n    Hostname " ++
      "h" ++ "\n    User " ++ "u" ++ "\n\n" ++ rest :=
  C6_bastion_first "p" "" "h" "u" "iu" [] [bastion_config "p" "h" "u"] rfl

theorem find_name_first (pre : List Tag) (v : String) (post : List Tag)
    (hpre : ∀ t ∈ pre, t.key ≠ "Name") :
    (pre ++ Tag.mk "Name" v :: post).find? (fun tag => tag.key == "Name") =
      some (Tag.mk "Name" v) := by
  induction pre with
  | nil => simp [List.find?]
  | cons t ts ih =>
    have ht : (t.key == "Name") = false := by
      have := hpre t (List.mem_cons_self t ts)
      simpa using this
    simp only [List.cons_append, List.find?_cons, ht]
    exact ih (fun x hx => hpre x (List.mem_cons_of_mem t hx))

/-- C7: Per-instance rendering. (1) The `Name` lookup is an exact,
case-sensitive, first-match-wins scan of the tag list; (2) an instance whose
tag list has no `Name` key is skipped — the renderer's result on it is the
result on the remaining instances, with no stanza and no write; (3) an
instance with a `Name` tag and a private IP contributes a stanza whose first
line is exactly `Host: ` followed by the prefix and the name, with the
private IP as `Hostname`, the configured instance user as `User`, and a
`ProxyCommand` through `aws_profile-bastion`. -/
theorem C7_instance_stanza ( instance_pfx instance_user aws_profile : String)
    (inst : Instance) (rest : List Instance) :
    (∀ pre v post, inst.tags = some (pre ++ Tag.mk "Name" v :: post) →
      (∀ t ∈ pre, t.key ≠ "Name") → get_tag inst "Name" = Except.ok (some v)) ∧
    (∀ ts, inst.tags = some ts → (∀ t ∈ ts, t.key ≠ "Name") →
      get_tag inst "Name" = Except.ok none ∧
      renderInstances instance_pfx instance_user aws_profile (inst :: rest) =
        renderInstances instance_pfx instance_user aws_profile rest) ∧
    (∀ name ip, get_tag inst "Name" = Except.ok (some name) →
      inst.privateIpAddress = some ip →
      renderInstances instance_pfx instance_user aws_profile (inst :: rest) =
        Except.map (fun tail =>
          ("Host: " ++ instance_pfx ++ name ++ "\n    Hostname " ++ ip ++ "\n    User " ++
            instance_user ++ "\n    ProxyCommand ssh " ++ aws_profile ++
            "-bastion nc %h %p\n\n") :: tail)
          (renderInstances instance_pfx instance_user aws_profile rest)) := by
  refine ⟨?_, ?_, ?_⟩
  · intro pre v post hts hpre
    simp [get_tag, hts, find_name_first pre v post hpre]
  · intro ts hts hnone
    have hfind : ts.find? (fun tag => tag.key == "Name") = none := by
      rw [List.find?_eq_none]
      intro t htmem
      simpa using hnone t htmem
    constructor
    · simp [get_tag, hts, hfind]
    · simp [renderInstances, get_tag, hts, hfind]
  · intro name ip hname hip
    simp only [renderInstances, hname, hip]
    cases renderInstances instance_pfx instance_user aws_profile rest with
    | error e => rfl
    | ok tail => rfl

/-- C7 witness: a concrete instance whose second tag is `Name: web1` (the
first tag has a different key) renders to exactly one stanza with the
prefixed host line, the private IP, the user, and the proxy command. -/
theorem C7_instance_stanza_witness :
    get_tag (Instance.mk (some [⟨"env", "x"⟩, ⟨"Name", "web1"⟩]) (some "10.0.0.7")) "Name" =
      Except.ok (some "web1") ∧
    renderInstances "pre-" "u" "p"
        [Instance.mk (some [⟨"env", "x"⟩, ⟨"Name", "web1"⟩]) (some "10.0.0.7")] =
      Except.ok ["Host: pre-web1\n    Hostname 10.0.0.7\n    User u\n    ProxyCommand ssh p-bastion nc %h %p\n\n"] := by
  have h := C7_instance_stanza "pre-" "u" "p"
    (Instance.mk (some [⟨"env", "x"⟩, ⟨"Name", "web1"⟩]) (some "10.0.0.7")) []
  have h1 := h.1 [⟨"env", "x"⟩] "web1" [] rfl (by
    intro t ht
    simp only [List.mem_singleton] at ht
    subst ht
    decide)
  refine ⟨h1, ?_⟩
  rw [h.2.2 "web1" "10.0.0.7" h1 rfl]
  rfl

/-- Environment for the C8 witness: the describe response has no reservation
groups at all. -/
def envC8 : Env :=
  ⟨["mk_aws_ssh_config", "cfg.yml"], ParseOutcome.ok cfgOk, Except.ok (), ⟨[]⟩⟩

/-- C8: An inventory response with an empty reservation list makes the access
into the first reservation group fail: the run ends in an uncaught
`IndexError` crash, which carries no exit status at all (in particular none
of the categorized statuses), and nothing is written to standard output. -/
theorem C8_empty_reservations_crash (env : Env) (f : String) (cfg a pfx bh bu iu : Yaml)
    (h1 : env.argv[1]? = some f)
    (h2 : env.parseOutcome = ParseOutcome.ok cfg)
    (h3 : extractConfig cfg = Except.ok (a, pfx, bh, bu, iu))
    (h4 : env.awsOutcome = Except.ok ())
    (h5 : env.response.reservations = []) :
    run env = ⟨Termination.crash (PyErr.indexError "list index out of range"), [], []⟩ ∧
    ∀ n, (run env).term ≠ Termination.exit n := by
  have hrun : run env =
      ⟨Termination.crash (PyErr.indexError "list index out of range"), [], []⟩ := by
    unfold run
    simp only [h1, h2, h3, h4, h5, List.getElem?_nil]
  exact ⟨hrun, fun n => by rw [hrun]; simp⟩

/-- C8 witness: with a concrete empty-reservation response the run crashes
with the uncategorized `IndexError`. -/
theorem C8_empty_reservations_crash_witness :
    run envC8 = ⟨Termination.crash (PyErr.indexError "list index out of range"), [], []⟩ ∧
    ∀ n, (run envC8).term ≠ Termination.exit n :=
  C8_empty_reservations_crash envC8 "cfg.yml" cfgOk (Yaml.str "p") (Yaml.str "") (Yaml.str "h")
    (Yaml.str "u") (Yaml.str "iu") rfl rfl rfl rfl rfl

/-- C9: An instance record with no `Tags` key at all crashes the run — when
the first instance of the first reservation group lacks a `Tags` key,
`get_tag` raises `KeyError` and the run ends in an uncaught crash with no
exit status and no output; by contrast, an instance whose tag list merely
lacks a `Name` entry is silently skipped by the renderer. -/
theorem C9_missing_tags_crash (env : Env) (f : String) (cfg a pfx bh bu iu : Yaml)
    (res : Reservation) (inst : Instance) (rest : List Instance)
    (h1 : env.argv[1]? = some f)
    (h2 : env.parseOutcome = ParseOutcome.ok cfg)
    (h3 : extractConfig cfg = Except.ok (a, pfx, bh, bu, iu))
    (h4 : env.awsOutcome = Except.ok ())
    (h5 : env.response.reservations[0]? = some res)
    (h6 : res.instances = inst :: rest) :
    (inst.tags = none →
      run env = ⟨Termination.crash (PyErr.keyError "Tags"), [], []⟩ ∧
      ∀ n, (run env).term ≠ Termination.exit n) ∧
    (∀ ts, inst.tags = some ts → ts.find? (fun tag => tag.key == "Name") = none →
      renderInstances (pyStr pfx) (pyStr iu) (pyStr a) (inst :: rest) =
        renderInstances (pyStr pfx) (pyStr iu) (pyStr a) rest) := by
  constructor
  · intro hT
    have hrun : run env = ⟨Termination.crash (PyErr.keyError "Tags"), [], []⟩ := by
      unfold run
      simp only [h1, h2, h3, h4, h5, h6, renderConfigs, renderInstances, get_tag, hT]
    exact ⟨hrun, fun n => by rw [hrun]; simp⟩
  · intro ts hts hfind
    simp [renderInstances, get_tag, hts, hfind]

/-- An instance record with no `Tags` key at all. -/
def instNoTags : Instance := ⟨none, some "10.0.0.9"⟩

/-- Environment for the C9 witness: the sole instance of the first
reservation group has no `Tags` key. -/
def envC9 : Env :=
  ⟨["mk_aws_ssh_config", "cfg.yml"], ParseOutcome.ok cfgOk, Except.ok (), ⟨[⟨[instNoTags]⟩]⟩⟩

/-- C9 witness: on a concrete response whose first instance has no `Tags`
key, the run crashes with `KeyError` on `Tags` and writes nothing. -/
theorem C9_missing_tags_crash_witness :
    run envC9 = ⟨Termination.crash (PyErr.keyError "Tags"), [], []⟩ :=
  ((C9_missing_tags_crash envC9 "cfg.yml" cfgOk (Yaml.str "p") (Yaml.str "") (Yaml.str "h")
    (Yaml.str "u") (Yaml.str "iu") ⟨[instNoTags]⟩ instNoTags []
    rfl rfl rfl rfl rfl rfl).1 rfl).1

end MkAwsSshConfig
